import Mathlib

/-!
Verification of the flyctl agent daemon (package `agent`): the protocol
dispatcher `handle`, the tunnel registry operations `handleEstablish` /
`tunnelFor`, the connection broker `handleConnect`, and the socket
lifecycle `removeSocket` / `NewServer`.  The Go source is shallowly
embedded: collaborators (the remote directory `api.Client`, the
wireguard state fetcher, the tunnel provider `wg.Connect`, and the TCP
dialer) are oracle fields of an `Env` record; the mutable server state
is the `Server` record threaded explicitly; Go runtime panics and Go
`error` returns are explicit constructors.
-/

set_option autoImplicit false

namespace FlyctlAgent

/-- an organization as returned by the remote directory (`api.Organization`);
only the slug is inspected by the agent, `id` keeps distinct organizations
distinguishable. -/
structure Organization where
  id : String
  slug : String
deriving DecidableEq, Repr

/-- opaque tunnel configuration derived from a wireguard state
(`state.TunnelConfig()`). -/
structure TunnelConfig where
  config : String
deriving DecidableEq, Repr

/-- wireguard state fetched by `wireguard.StateForOrg`; the agent only
ever calls `.TunnelConfig()` on it. -/
structure WireGuardState where
  tunnelConfig : TunnelConfig
deriving DecidableEq, Repr

/-- an established tunnel session (`wg.Tunnel`), tagged by the
configuration it was opened with. -/
structure Tunnel where
  sessionConfig : TunnelConfig
deriving DecidableEq, Repr

/-- the mutable state of the daemon (`agent.Server`).  `tunnels` is the Go
map `map[string]*wg.Tunnel`: `none` models a nil map (the zero value left
by a struct literal that omits the field), `some m` a non-nil map given as
an association list. -/
structure Server where
  tunnels : Option (List (String × Tunnel))
deriving DecidableEq, Repr

/-- the daemon's collaborators, modelled as oracles: the remote directory
(`s.client.GetOrganizations`), the wireguard state fetcher
(`wireguard.StateForOrg`), the tunnel provider (`wg.Connect`), the
host's default-network-stack TCP dialer (`net.Dialer.Dial`, whose second
argument is the configured timeout in milliseconds), and the process id
(`os.Getpid`). -/
structure Env where
  getOrganizations : Except String (List Organization)
  stateForOrg : Organization → Except String WireGuardState
  wgConnect : TunnelConfig → Except String Tunnel
  dial : String → Option Nat → Except String Unit
  pid : Nat

/-- reading a Go map (`s.tunnels[k]`): reading a nil map succeeds and
finds nothing. -/
def goMapLookup (m : Option (List (String × Tunnel))) (k : String) : Option Tunnel :=
  match m with
  | none => none
  | some l => l.lookup k

/-- writing a non-nil Go map (`m[k] = v`): replace the binding if the key
is present, otherwise add it. -/
def goMapInsert (l : List (String × Tunnel)) (k : String) (v : Tunnel) : List (String × Tunnel) :=
  if l.any (fun p => p.1 == k) then
    l.map (fun p => if p.1 == k then (k, v) else p)
  else l ++ [(k, v)]

/-- outcome of `handleEstablish`: a normal return with the lines written
to the connection, a returned Go `error` (carrying the registry state at
the point of return), or a Go runtime panic, which kills the whole
daemon process since no handler recovers. -/
inductive EstOut where
  | ok (writes : List String) (s : Server)
  | err (msg : String) (s : Server)
  | crash (msg : String)
deriving DecidableEq, Repr

/-- the organization-matching loop of `handleEstablish` (part_000 lines
253-258): `for _, o := range orgs { if o.Slug == slug { org = &o } }`.
With the range-loop semantics of the Go toolchain this repository builds
with (pre-1.22), `o` is a single variable reused across iterations and
`org` stores its address; the loop never breaks, so after it finishes
`o` holds the final element of `orgs`.  We return the pair (final value
of `o`, whether `org` was ever set). -/
def orgLoop (orgs : List Organization) (slug : String) : Option Organization × Bool :=
  orgs.foldl (fun acc o => (some o, acc.2 || (o.slug == slug))) (none, false)

/-- the value `*org` seen by the rest of `handleEstablish`: `none` when
`org` was never set (no slug matched), otherwise the final value of the
loop variable — the last element of `orgs`, not the element that
matched. -/
def resolveOrg (orgs : List Organization) (slug : String) : Option Organization :=
  match orgLoop orgs slug with
  | (oVar, found) => if found then oVar else none

/-- embedding of `Server.handleEstablish` (part_000 lines 240-280).
Steps, in source order: arity check; `GetOrganizations`; the matching
loop (`resolveOrg`); registry lookup under `org.Slug`; on a miss,
`wireguard.StateForOrg`, `wg.Connect`, then the registry write — which
panics when the map is nil, as a Go assignment to an entry in a nil map
does. -/
def handleEstablish (env : Env) (s : Server) (args : List String) : EstOut :=
  if args.length ≠ 2 then EstOut.err ("malformed establish command") s
  else
    match env.getOrganizations with
    | Except.error e => EstOut.err (("can\x27t load organizations from config: ") ++ e) s
    | Except.ok orgs =>
      match resolveOrg orgs (args.getD 1 ("")) with
      | none => EstOut.err ("no such organization") s
      | some org =>
        match goMapLookup s.tunnels org.slug with
        | some _ => EstOut.ok [("ok")] s
        | none =>
          match env.stateForOrg org with
          | Except.error e =>
              EstOut.err (("can\x27t get wireguard state for ") ++ org.slug ++ (": ") ++ e) s
          | Except.ok state =>
            match env.wgConnect state.tunnelConfig with
            | Except.error e => EstOut.err (("can\x27t connect wireguard: ") ++ e) s
            | Except.ok tunnel =>
              match s.tunnels with
              | none => EstOut.crash ("assignment to entry in nil map")
              | some m =>
                  EstOut.ok [("ok")] { s with tunnels := some (goMapInsert m org.slug tunnel) }

/-- splitting a character list at every space, keeping empty fields, as
Go's `strings.Split(s, " ")` does on the underlying bytes. -/
def splitSpaceChars : List Char → List (List Char)
  | [] => [[]]
  | c :: cs =>
    match splitSpaceChars cs, c with
    | r, ' ' => [] :: r
    | [], c2 => [[c2]]
    | w :: ws, c2 => (c2 :: w) :: ws

/-- embedding of `strings.Split(string(buf), " ")` (part_000 line 141):
always returns at least one field; `""` yields `[""]`, consecutive
separators yield empty fields. -/
def goSplit (s : String) : List String :=
  (splitSpaceChars s.toList).map (fun cs => String.mk cs)

/-- decimal value of a digit string, most significant digit first. -/
def decimalValue (s : String) : Nat :=
  s.toList.foldl (fun n c => n * 10 + (c.toNat - 48)) 0

/-- whether a string is a non-empty run of ASCII decimal digits — exactly
the syntax `strconv.ParseUint(s, 10, 32)` accepts: no sign, no
underscores, no other characters. -/
def isDecimal (s : String) : Bool :=
  !(s.toList.isEmpty) && s.toList.all (fun c => c.isDigit)

/-- embedding of `strconv.ParseUint(s, 10, 32)` (part_000 line 292):
succeeds iff `s` is a non-empty digit run whose value fits in 32 bits;
a syntactically valid but out-of-range value is an error (`ErrRange`),
like any non-numeric token. -/
def parseUint32 (s : String) : Option Nat :=
  if isDecimal s && decide (decimalValue s < 4294967296) then some (decimalValue s) else none

/-- the message of the `*strconv.NumError` produced by a failing
`strconv.ParseUint(s, 10, 32)`, as rendered by `%s`. -/
def strconvMessage (s : String) : String :=
  if isDecimal s then
    ("strconv.ParseUint: parsing \"") ++ s ++ ("\": value out of range")
  else
    ("strconv.ParseUint: parsing \"") ++ s ++ ("\": invalid syntax")

/-- space-joined concatenation, the inner part of `%v` on a `[]string`. -/
def joinSpace : List String → String
  | [] => ("")
  | [x] => x
  | x :: xs => x ++ (" ") ++ joinSpace xs

/-- the `%v` rendering of a Go `[]string`, used by the `bad command` and
`malformed connect command` messages. -/
def goSliceRepr (args : List String) : String :=
  ("[") ++ joinSpace args ++ ("]")

/-- result of `handleConnect`: `dialed` records the argument pair
(address, timeout in milliseconds) passed to `net.Dialer.Dial` when a
dial was attempted (`none` = no dial attempted); `writes` lists the
lines `handleConnect` itself wrote; `relay` is whether the two byte-pump
goroutines were started; `err` is the Go `error` it returned. -/
structure ConnectResult where
  dialed : Option (String × Option Nat)
  writes : List String
  relay : Bool
  err : Option String
deriving DecidableEq, Repr

/-- the dial-and-relay tail of `handleConnect` (part_000 lines 300-315):
`d.Dial("tcp", args[1])` with the configured timeout; on failure return
the `connection failed` error with no write and no relay; on success
write `ok` and start both copy goroutines. -/
def connectDial (env : Env) (addr : String) (timeoutMs : Option Nat) : ConnectResult :=
  match env.dial addr timeoutMs with
  | Except.error reason =>
      { dialed := some (addr, timeoutMs), writes := [], relay := false
        err := some (("connection failed: ") ++ reason) }
  | Except.ok _ =>
      { dialed := some (addr, timeoutMs), writes := [("ok")], relay := true, err := none }

/-- embedding of `Server.handleConnect` (part_000 lines 282-316): arity
check; optional third token parsed with `strconv.ParseUint(_, 10, 32)`
and installed as `d.Timeout` in milliseconds; then the dial.  The
receiver `s` is the server state: the method has access to the tunnel
registry but its body never consults it — the destination string is
handed to the default-network-stack dialer verbatim. -/
def handleConnect (env : Env) (s : Server) (args : List String) : ConnectResult :=
  if args.length < 2 ∨ args.length > 3 then
    { dialed := none, writes := [], relay := false
      err := some (("malformed connect command: ") ++ goSliceRepr args) }
  else if args.length > 2 then
    match parseUint32 (args.getD 2 ("")) with
    | none =>
        { dialed := none, writes := [], relay := false
          err := some (("invalid timeout: ") ++ strconvMessage (args.getD 2 (""))) }
    | some t => connectDial env (args.getD 1 ("")) (some t)
  else connectDial env (args.getD 1 ("")) none

/-- outcome of `Server.handle` on one accepted connection: the lines
written to the client, the server state afterwards, and whether a relay
was started — or a runtime panic, which crashes the daemon process. -/
inductive HandleOut where
  | normal (writes : List String) (s : Server) (relay : Bool)
  | crashed (msg : String)
deriving DecidableEq, Repr

/-- embedding of `Server.handle` (part_000 lines 130-160) given the
request line already read from the connection: split on spaces, dispatch
`args[0]` against the closed command map {kill, ping, connect,
establish}; an unknown command or a handler error goes through `errLog`
(part_000 lines 221-224), which prefixes the format with `err ` — so a
handler error `e` is reported as `err err handling <cmd>: <e>`.  The
connection is closed on every path (`defer c.Close()`); `handleKill`
only closes the listener, which is outside this state model. -/
def handle (env : Env) (s : Server) (request : String) : HandleOut :=
  let args := goSplit request
  let a0 := args.headD ("")
  if a0 = "kill" then HandleOut.normal [] s false
  else if a0 = "ping" then HandleOut.normal [("pong ") ++ toString env.pid] s false
  else if a0 = "connect" then
    match handleConnect env s args with
    | r =>
      match r.err with
      | some e => HandleOut.normal (r.writes ++ [("err err handling ") ++ a0 ++ (": ") ++ e]) s r.relay
      | none => HandleOut.normal r.writes s r.relay
  else if a0 = "establish" then
    match handleEstablish env s args with
    | EstOut.ok w s2 => HandleOut.normal w s2 false
    | EstOut.err e s2 => HandleOut.normal [("err err handling ") ++ a0 ++ (": ") ++ e] s2 false
    | EstOut.crash m => HandleOut.crashed m
  else HandleOut.normal [("err bad command: ") ++ goSliceRepr args] s false

/-- a Go `error` value with just enough structure for `errors.Is`:
the sentinel `ErrCantBind` (part_000 line 116), plain one-off errors,
and `fmt.Errorf` wrapping via `%w` — `wrap pre inner post` renders as
`pre + inner.msg + post` and unwraps to `inner`. -/
inductive GoError where
  | errCantBind : GoError
  | plain (msg : String) : GoError
  | wrap (pre : String) (inner : GoError) (post : String) : GoError
deriving DecidableEq, Repr

/-- the `Error()` string of a modelled Go error. -/
def GoError.msg : GoError → String
  | GoError.errCantBind => ("can\x27t bind agent socket")
  | GoError.plain m => m
  | GoError.wrap pre inner post => pre ++ inner.msg ++ post

/-- embedding of `errors.Is(e, target)`: `e` matches `target` directly or
through any number of unwrappings. -/
def GoError.isError : GoError → GoError → Bool
  | GoError.wrap pre inner post, target =>
      (GoError.wrap pre inner post == target) || inner.isError target
  | e, target => e == target

/-- a filesystem entry at the agent socket path: its `os.Stat` mode bit of
interest and its content (so that "left untouched" is observable). -/
structure FsEntry where
  isSocket : Bool
  content : String
deriving DecidableEq, Repr

/-- the error of `removeSocket` against a non-socket entry:
`fmt.Errorf("%w: refusing to remove something that isn't a socket", ErrCantBind)`. -/
def errNotSocket : GoError :=
  GoError.wrap ("") GoError.errCantBind (": refusing to remove something that isn\x27t a socket")

/-- embedding of `removeSocket` (part_000 lines 349-360) over the entry
at the path (`none` = no entry, so `os.Stat` fails): returns the Go
error and the entry afterwards.  A non-socket entry yields the
`ErrCantBind`-wrapping error and is not removed; a socket entry is
removed by `os.Remove`. -/
def removeSocket (entry : Option FsEntry) : Except GoError Unit × Option FsEntry :=
  match entry with
  | none => (Except.error (GoError.plain ("stat: no such file or directory")), none)
  | some fe =>
    if fe.isSocket then (Except.ok (), none)
    else (Except.error errNotSocket, some fe)

/-- embedding of `NewServer` (part_000 lines 162-196) over the socket-path
entry and the outcome of `net.ListenUnix` on it.  The best-effort
`NewClient(path)` / `Kill()` probe does not touch this state.  A
`removeSocket` failure aborts startup only when it is the
`ErrCantBind` case; a bind failure is returned wrapped as
`fmt.Errorf("can't bind: %w", err)`.  On success the `Server` literal
at lines 189-193 sets `listener`, `cmdctx` and `client` but omits
`tunnels`, which therefore stays the zero value: a nil map.
(`net.ResolveUnixAddr` failure exits the process and is outside this
model.) -/
def NewServer (entry : Option FsEntry) (bind : Except GoError Unit) : Except GoError Server :=
  let afterRemove : Except GoError Server :=
    match bind with
    | Except.error e => Except.error (GoError.wrap ("can\x27t bind: ") e (""))
    | Except.ok _ => Except.ok { tunnels := none }
  match (removeSocket entry).1 with
  | Except.error e => if e.isError GoError.errCantBind then Except.error e else afterRemove
  | Except.ok _ => afterRemove

/-- embedding of `Server.tunnelFor` (part_000 lines 318-328): registry
lookup, failing with the no-tunnel error when absent.  Present in the
source but not called by `handleConnect`. -/
def tunnelFor (s : Server) (slug : String) : Except String Tunnel :=
  match goMapLookup s.tunnels slug with
  | none => Except.error (("no tunnel for ") ++ slug ++ (" established"))
  | some t => Except.ok t

/-! Concrete organizations, tunnels and collaborator environments used to
instantiate the theorems below. -/

/-- an organization with slug `acme`. -/
def orgAcme : Organization := { id := "1", slug := "acme" }

/-- a second organization with slug `beta`. -/
def orgBeta : Organization := { id := "2", slug := "beta" }

/-- an already-established tunnel for `acme`. -/
def tunnelAcme : Tunnel := { sessionConfig := { config := ("acme-cfg") } }

/-- collaborators that all succeed: the directory knows `acme`, wireguard
state is derived from the organization's slug, the tunnel provider and
the dialer succeed, and the daemon pid is 7. -/
def envHappy : Env :=
  { getOrganizations := Except.ok [orgAcme]
    stateForOrg := fun o => Except.ok { tunnelConfig := { config := o.slug } }
    wgConnect := fun tc => Except.ok { sessionConfig := tc }
    dial := fun _ _ => Except.ok ()
    pid := 7 }

/-- like `envHappy` but the directory lists `acme` then `beta`. -/
def envTwoOrgs : Env := { envHappy with getOrganizations := Except.ok [orgAcme, orgBeta] }

/-- like `envHappy` but the remote directory is unreachable. -/
def envDirDown : Env :=
  { envHappy with getOrganizations := Except.error ("remote directory unavailable") }

/-- like `envHappy` but every dial is refused. -/
def envDialRefused : Env :=
  { envHappy with dial := fun _ _ => Except.error ("connection refused") }

/-- helper: every Go error matches itself under `errors.Is`. -/
theorem GoError.isError_self (e : GoError) : e.isError e = true := by
  cases e <;> simp [GoError.isError]

/-- C1 counterexample: with an empty (non-nil) tunnel registry, a
`connect` to a hostname destination is dialed through the default
network stack and succeeds — the reply is `ok` and the relay starts —
instead of failing with the no-tunnel error, refuting the claim that
such a request succeeds only when a tunnel exists and is resolved
through it. -/
theorem connect_without_tunnel_succeeds :
    handle envHappy { tunnels := some [] } ("connect myhost.internal:80") =
      HandleOut.normal [("ok")] { tunnels := some [] } true ∧
    goMapLookup (some []) ("myhost.internal") = none := by
  exact ⟨rfl, rfl⟩

/-- C1 (amended): `handleConnect` never consults the tunnel registry —
its result is identical for any two server states — and for a
two-token request the destination string is passed verbatim to the
default-network-stack dialer with no timeout; no tunnel lookup, tunnel
resolution, or no-tunnel error occurs on this path. -/
theorem handleConnect_ignores_registry (env : Env) (s t : Server) (args : List String)
    (a : String) :
    handleConnect env s args = handleConnect env t args ∧
    (handleConnect env s [("connect"), a]).dialed = some (a, none) := by
  constructor
  · rfl
  · have h0 : handleConnect env s [("connect"), a] = connectDial env a none := rfl
    rw [h0]
    cases h : env.dial a none <;> simp [connectDial, h]

/-- C2: the state built by `NewServer` has a nil tunnel registry, and on
it the first fully successful `establish` (organization found,
wireguard state fetched, tunnel opened) panics on the registry write —
`assignment to entry in nil map` — crashing the daemon process, against
the claim that no handler can crash the daemon. -/
theorem first_establish_after_NewServer_crashes :
    NewServer none (Except.ok ()) = Except.ok { tunnels := none } ∧
    handle envHappy { tunnels := none } ("establish acme") =
      HandleOut.crashed ("assignment to entry in nil map") := by
  exact ⟨rfl, rfl⟩

/-- C3 counterexample: the registry already holds a tunnel under `acme`,
yet `establish acme` does not reply `ok`: the remote directory is
consulted first, and its failure fails the whole request — refuting
the claim that an already-established organization is acknowledged
immediately without consulting the remote directory. -/
theorem establish_with_tunnel_requires_directory :
    handleEstablish envDirDown { tunnels := some [(("acme"), tunnelAcme)] }
        [("establish"), ("acme")] =
      EstOut.err ("can\x27t load organizations from config: remote directory unavailable")
        { tunnels := some [(("acme"), tunnelAcme)] } := by
  exact rfl

/-- C3 (amended): a repeated `establish` is idempotent only after
re-consulting the remote directory: when the directory call succeeds,
the request resolves to some organization (because of the
pointer-to-loop-variable capture, the last element of the returned
list), and the registry already holds a tunnel under that
organization's slug, the reply is `ok` and the registry is returned
unchanged — no duplicate tunnel is created. -/
theorem establish_idempotent_after_resolution (env : Env) (s : Server) (orgId : String)
    (orgs : List Organization) (org : Organization) (t : Tunnel)
    (h1 : env.getOrganizations = Except.ok orgs)
    (h2 : resolveOrg orgs orgId = some org)
    (h3 : goMapLookup s.tunnels org.slug = some t) :
    handleEstablish env s [("establish"), orgId] = EstOut.ok [("ok")] s := by
  simp [handleEstablish, h1, h2, h3]

/-- witness for C3's amended theorem at a concrete input: the directory
lists exactly `acme`, the registry holds `acme`, and the second
`establish acme` replies `ok` with the registry unchanged. -/
theorem establish_idempotent_after_resolution_witness :
    handleEstablish envHappy { tunnels := some [(("acme"), tunnelAcme)] }
        [("establish"), ("acme")] =
      EstOut.ok [("ok")] { tunnels := some [(("acme"), tunnelAcme)] } :=
  establish_idempotent_after_resolution envHappy
    { tunnels := some [(("acme"), tunnelAcme)] } ("acme") [orgAcme] orgAcme tunnelAcme
    rfl rfl rfl

/-- C4: whenever `handleEstablish` returns an error — directory fetch
failure, no matching organization, wireguard state failure, or tunnel
open failure — the server state it returns is exactly the state it was
given: no partial registry entry is ever inserted on a failure path. -/
theorem establish_failure_leaves_registry (env : Env) (s : Server) (args : List String)
    (msg : String) (s2 : Server)
    (h : handleEstablish env s args = EstOut.err msg s2) :
    s2 = s := by
  unfold handleEstablish at h
  repeat' split at h
  all_goals simp_all

/-- witness for C4 at a concrete input: a directory failure reports an
error and returns the registry untouched. -/
theorem establish_failure_leaves_registry_witness :
    ({ tunnels := some [(("acme"), tunnelAcme)] } : Server) =
      { tunnels := some [(("acme"), tunnelAcme)] } :=
  establish_failure_leaves_registry envDirDown
    { tunnels := some [(("acme"), tunnelAcme)] } [("establish"), ("acme")]
    ("can\x27t load organizations from config: remote directory unavailable")
    { tunnels := some [(("acme"), tunnelAcme)] } rfl

/-- C5: for an existing filesystem entry, `removeSocket` refuses a
non-socket — returning the error that wraps `ErrCantBind` (it matches
under `errors.Is`) and leaving the entry in place — and removes the
entry when it is a socket. -/
theorem removeSocket_socket_guard (fe : FsEntry) :
    (fe.isSocket = false →
      removeSocket (some fe) = (Except.error errNotSocket, some fe) ∧
        errNotSocket.isError GoError.errCantBind = true) ∧
    (fe.isSocket = true → removeSocket (some fe) = (Except.ok (), none)) := by
  constructor
  · intro h
    exact ⟨by simp [removeSocket, h], rfl⟩
  · intro h
    simp [removeSocket, h]

/-- witness for C5 at concrete entries: a regular file is refused and
kept, a socket is removed. -/
theorem removeSocket_socket_guard_witness :
    (removeSocket (some { isSocket := false, content := ("data") }) =
        (Except.error errNotSocket, some { isSocket := false, content := ("data") }) ∧
      errNotSocket.isError GoError.errCantBind = true) ∧
    removeSocket (some { isSocket := true, content := ("") }) = (Except.ok (), none) :=
  ⟨(removeSocket_socket_guard { isSocket := false, content := ("data") }).1 rfl,
   (removeSocket_socket_guard { isSocket := true, content := ("") }).2 rfl⟩

/-- C6 counterexample: at a concrete bind failure `address already in
use`, `NewServer` returns no server but the error it returns renders as
`can't bind: address already in use` — a wrapped error whose message
differs from the original's, refuting propagation `unmodified`. -/
theorem bind_error_reported_wrapped :
    NewServer none (Except.error (GoError.plain ("address already in use"))) =
      Except.error
        (GoError.wrap ("can\x27t bind: ") (GoError.plain ("address already in use")) ("")) ∧
    (GoError.wrap ("can\x27t bind: ") (GoError.plain ("address already in use")) ("")).msg ≠
      (GoError.plain ("address already in use")).msg := by
  exact ⟨rfl, by decide⟩

/-- C6 (amended): when the socket path holds no entry or a socket (so
startup reaches the bind), a bind failure is fatal — `NewServer`
returns an error and no server — and the bind error is propagated
wrapped as `can't bind: <err>`, still matching the original under
`errors.Is`, rather than byte-for-byte unmodified. -/
theorem NewServer_bind_failure_fatal (entry : Option FsEntry) (e : GoError)
    (h : ∀ fe, entry = some fe → fe.isSocket = true) :
    NewServer entry (Except.error e) =
      Except.error (GoError.wrap ("can\x27t bind: ") e ("")) ∧
    (GoError.wrap ("can\x27t bind: ") e ("")).isError e = true := by
  constructor
  · cases entry with
    | none => rfl
    | some fe =>
      have hs := h fe rfl
      simp [NewServer, removeSocket, hs]
  · simp [GoError.isError, GoError.isError_self]

/-- witness for C6's amended theorem at a concrete bind error on an
unoccupied socket path. -/
theorem NewServer_bind_failure_fatal_witness :
    NewServer none (Except.error (GoError.plain ("boom"))) =
      Except.error (GoError.wrap ("can\x27t bind: ") (GoError.plain ("boom")) ("")) ∧
    (GoError.wrap ("can\x27t bind: ") (GoError.plain ("boom")) ("")).isError
        (GoError.plain ("boom")) = true :=
  NewServer_bind_failure_fatal none (GoError.plain ("boom"))
    (fun fe hfe => Option.noConfusion hfe)

/-- C7 counterexample: at a concrete refused dial, the line the client
receives is `err err handling connect: connection failed: connection
refused` — the dispatcher's `errLog` adds its own `err handling
connect:` prefix after the `err` status tag — which is not the claimed
exact reply `err connection failed: <reason>`. -/
theorem connect_dial_failure_reply_text :
    handle envDialRefused { tunnels := some [] } ("connect 10.0.0.1:80") =
      HandleOut.normal [("err err handling connect: connection failed: connection refused")]
        { tunnels := some [] } false ∧
    ("err err handling connect: connection failed: connection refused") ≠
      ("err connection failed: connection refused") := by
  exact ⟨rfl, by decide⟩

/-- C7 (amended): when the destination dial fails, the client's reply is
the single line `err err handling connect: connection failed:
<reason>` (first token `err`, then the dispatcher's error-handling
prefix, then the dial error), no relay is started, the registry is
untouched, and no `ok` is ever written. -/
theorem connect_dial_failure_no_relay (env : Env) (s : Server) (req a reason : String)
    (h1 : goSplit req = [("connect"), a])
    (h2 : env.dial a none = Except.error reason) :
    handle env s req =
      HandleOut.normal [("err err handling connect: connection failed: ") ++ reason] s
        false := by
  simp [handle, h1, handleConnect, connectDial, h2]
  rw [← String.append_assoc]
  rfl

/-- witness for C7's amended theorem at a concrete refused dial. -/
theorem connect_dial_failure_no_relay_witness :
    handle envDialRefused { tunnels := some [] } ("connect 10.0.0.1:80") =
      HandleOut.normal
        [("err err handling connect: connection failed: ") ++ ("connection refused")]
        { tunnels := some [] } false :=
  connect_dial_failure_no_relay envDialRefused { tunnels := some [] }
    ("connect 10.0.0.1:80") ("10.0.0.1:80") ("connection refused") rfl rfl

/-- C8: the directory returns `acme` then `beta` and the unique match for
`establish acme` is `acme`, yet the wireguard state is fetched for the
final list element `beta`, the tunnel is opened with `beta`'s
configuration, and it is registered under key `beta` — because the loop
stores the address of its iteration variable.  The claim's
organization-not-found direction is unaffected, but the matching
organization is not the one used. -/
theorem establish_uses_last_org_not_match :
    envTwoOrgs.getOrganizations = Except.ok [orgAcme, orgBeta] ∧
    orgAcme.slug = ("acme") ∧ orgBeta.slug ≠ ("acme") ∧
    handleEstablish envTwoOrgs { tunnels := some [] } [("establish"), ("acme")] =
      EstOut.ok [("ok")]
        { tunnels := some [(("beta"), { sessionConfig := { config := ("beta") } })] } := by
  exact ⟨rfl, rfl, by decide, rfl⟩

/-- C9: any request whose first token is outside the closed command set
{ping, kill, establish, connect} is answered with exactly
`err bad command: <args>` (the `%v` rendering of the split request),
the server state is unchanged, no relay starts — and the daemon still
serves a subsequent `ping` with `pong <pid>`. -/
theorem unknown_command_isolated (env : Env) (s : Server) (req : String)
    (h : ¬ (goSplit req).headD ("") ∈ [("ping"), ("kill"), ("establish"), ("connect")]) :
    handle env s req =
      HandleOut.normal [("err bad command: ") ++ goSliceRepr (goSplit req)] s false ∧
    handle env s ("ping") = HandleOut.normal [("pong ") ++ toString env.pid] s false := by
  have h1 : ¬ (goSplit req).headD ("") = "kill" := fun hh => h (by rw [hh]; simp)
  have h2 : ¬ (goSplit req).headD ("") = "ping" := fun hh => h (by rw [hh]; simp)
  have h3 : ¬ (goSplit req).headD ("") = "connect" := fun hh => h (by rw [hh]; simp)
  have h4 : ¬ (goSplit req).headD ("") = "establish" := fun hh => h (by rw [hh]; simp)
  refine ⟨?_, rfl⟩
  show handle env s req = _
  simp only [handle]
  rw [if_neg h1, if_neg h2, if_neg h3, if_neg h4]

/-- witness for C9 at the spec's own scenario: `bogus foo` is rejected
with `err bad command: [bogus foo]` and a fresh `ping` still answers
`pong 7`. -/
theorem unknown_command_isolated_witness :
    handle envHappy { tunnels := some [] } ("bogus foo") =
      HandleOut.normal [("err bad command: [bogus foo]")] { tunnels := some [] } false ∧
    handle envHappy { tunnels := some [] } ("ping") =
      HandleOut.normal [("pong 7")] { tunnels := some [] } false :=
  unknown_command_isolated envHappy { tunnels := some [] } ("bogus foo") (by decide)

/-- C10: for a three-token `connect`, a dial is attempted iff the third
token is a non-empty run of decimal digits whose value is below 2^32;
an accepted value is handed to the dialer as the timeout in
milliseconds together with the untouched destination; a rejected token
yields the `invalid timeout` protocol error with no dial attempted and
no relay. -/
theorem connect_timeout_parse_gate (env : Env) (s : Server) (a tok : String) :
    ((handleConnect env s [("connect"), a, tok]).dialed ≠ none ↔
      (tok.toList ≠ [] ∧ tok.toList.all (fun c => c.isDigit) = true ∧
        decimalValue tok < 4294967296)) ∧
    (∀ n, parseUint32 tok = some n →
      (handleConnect env s [("connect"), a, tok]).dialed = some (a, some n)) ∧
    (parseUint32 tok = none →
      (handleConnect env s [("connect"), a, tok]).dialed = none ∧
      (handleConnect env s [("connect"), a, tok]).err =
        some (("invalid timeout: ") ++ strconvMessage tok) ∧
      (handleConnect env s [("connect"), a, tok]).relay = false) := by
  have hbridge : (isDecimal tok && decide (decimalValue tok < 4294967296)) = true ↔
      (tok.toList ≠ [] ∧ tok.toList.all (fun c => c.isDigit) = true ∧
        decimalValue tok < 4294967296) := by
    cases hcs : tok.data with
    | nil => simp [isDecimal, String.toList, hcs]
    | cons c cs => simp [isDecimal, String.toList, hcs, and_assoc]
  cases h : parseUint32 tok with
  | none =>
    have e1 : handleConnect env s [("connect"), a, tok] =
        { dialed := none, writes := [], relay := false
          err := some (("invalid timeout: ") ++ strconvMessage tok) } := by
      simp [handleConnect, h]
    have hfalse : ¬ (tok.toList ≠ [] ∧ tok.toList.all (fun c => c.isDigit) = true ∧
        decimalValue tok < 4294967296) := by
      intro hcR
      have hc := hbridge.mpr hcR
      unfold parseUint32 at h
      rw [hc] at h
      simp at h
    refine ⟨?_, ?_, ?_⟩
    · rw [e1]
      exact ⟨fun hd => absurd rfl hd, fun hc => absurd hc hfalse⟩
    · intro n hn
      exact Option.noConfusion hn
    · intro _
      rw [e1]
      exact ⟨rfl, rfl, rfl⟩
  | some t =>
    have e2 : handleConnect env s [("connect"), a, tok] = connectDial env a (some t) := by
      simp [handleConnect, h]
    have hc : (isDecimal tok && decide (decimalValue tok < 4294967296)) = true := by
      by_contra hb
      rw [Bool.not_eq_true] at hb
      unfold parseUint32 at h
      rw [hb] at h
      simp at h
    have hcondR := hbridge.mp hc
    refine ⟨?_, ?_, ?_⟩
    · rw [e2]
      constructor
      · intro _
        exact hcondR
      · intro _
        cases hdial : env.dial a (some t) <;> simp [connectDial, hdial]
    · intro n hn
      cases hn
      rw [e2]
      cases hdial : env.dial a (some t) <;> simp [connectDial, hdial]
    · intro hn
      exact Option.noConfusion hn

/-- witness for C10 at concrete tokens: `100` is accepted and passed as a
100 ms timeout with the untouched address, `abc` is rejected with no
dial. -/
theorem connect_timeout_parse_gate_witness :
    (handleConnect envHappy { tunnels := some [] } [("connect"), ("h:80"), ("100")]).dialed =
      some (("h:80"), some 100) ∧
    (handleConnect envHappy { tunnels := some [] } [("connect"), ("h:80"), ("abc")]).dialed =
      none :=
  ⟨(connect_timeout_parse_gate envHappy { tunnels := some [] } ("h:80") ("100")).2.1 100 rfl,
   ((connect_timeout_parse_gate envHappy { tunnels := some [] } ("h:80") ("abc")).2.2
      rfl).1⟩

end FlyctlAgent
